import Mathlib

/-!
Verification of the signing-and-dispatch core of the `futures` repository
(Go HTTP clients for the Gate.io and XT.com futures exchanges).

The Go source is shallowly embedded:
* bytes are `Nat` values `< 256`, strings are converted via UTF-8;
* SHA-256 / SHA-512 / HMAC are implemented concretely over `Nat`
  (validated below against standard test vectors);
* the clients' `generateSignature`, `sortAndEncodeParams`,
  `url.Values.Encode` and `sendRequest` are translated function by
  function; `sendRequest` is split into a pure request-building phase,
  an abstract transport call, and a response-handling phase, with the
  transport modelled as a function argument so that theorems can speak
  about whether the network is reached.
-/

set_option maxRecDepth 100000

namespace Futures

/-! ## Bytes, hex, UTF-8 -/

/-- Lower-case hex digit, as used by Go's `encoding/hex`. -/
def hexDigit (n : Nat) : Char :=
  if n < 10 then Char.ofNat (48 + n) else Char.ofNat (87 + n)

/-- Upper-case hex digit, as used by Go's `net/url` percent-encoding. -/
def hexDigitUpper (n : Nat) : Char :=
  if n < 10 then Char.ofNat (48 + n) else Char.ofNat (55 + n)

/-- Go `hex.EncodeToString`: lower-case hex of a byte sequence. -/
def hexEncode (bs : List Nat) : String :=
  String.mk (bs.foldr (fun b acc => hexDigit (b / 16) :: hexDigit (b % 16) :: acc) [])

/-- UTF-8 encoding of one character (Go strings are UTF-8 byte sequences). -/
def utf8Bytes (c : Char) : List Nat :=
  let n := c.toNat
  if n < 0x80 then [n]
  else if n < 0x800 then [0xC0 + n / 64, 0x80 + n % 64]
  else if n < 0x10000 then [0xE0 + n / 4096, 0x80 + n / 64 % 64, 0x80 + n % 64]
  else [0xF0 + n / 0x40000, 0x80 + n / 4096 % 64, 0x80 + n / 64 % 64, 0x80 + n % 64]

/-- The byte sequence of a Go string (`[]byte(s)`). -/
def strBytes (s : String) : List Nat :=
  s.data.foldr (fun c acc => utf8Bytes c ++ acc) []

/-- Big-endian byte encoding of `v` in `n` bytes. -/
def beBytes (n v : Nat) : List Nat :=
  (List.range n).map fun i => v / 256 ^ (n - 1 - i) % 256

/-! ## 32-bit and 64-bit word arithmetic (`Nat` with explicit modulus) -/

def add32 (a b : Nat) : Nat := (a + b) % 4294967296
def rotr32 (n x : Nat) : Nat := (x >>> n) ||| ((x <<< (32 - n)) % 4294967296)
def not32 (x : Nat) : Nat := Nat.xor x 4294967295

def add64 (a b : Nat) : Nat := (a + b) % 18446744073709551616
def rotr64 (n x : Nat) : Nat := (x >>> n) ||| ((x <<< (64 - n)) % 18446744073709551616)
def not64 (x : Nat) : Nat := Nat.xor x 18446744073709551615

def xor3 (a b c : Nat) : Nat := Nat.xor (Nat.xor a b) c

/-- Split a byte list into chunks of `n` bytes (`fuel` bounds the recursion). -/
def chunksGo (fuel n : Nat) (l : List Nat) : List (List Nat) :=
  match fuel, l with
  | 0, _ => []
  | _, [] => []
  | fuel + 1, l => l.take n :: chunksGo fuel n (l.drop n)

def chunks (n : Nat) (l : List Nat) : List (List Nat) := chunksGo l.length n l

/-- Big-endian 4-byte words of a byte list (length assumed a multiple of 4). -/
def toWords32 : List Nat → List Nat
  | a :: b :: c :: d :: rest => (((a * 256 + b) * 256 + c) * 256 + d) :: toWords32 rest
  | _ => []

/-- Big-endian 8-byte words of a byte list (length assumed a multiple of 8). -/
def toWords64 : List Nat → List Nat
  | a :: b :: c :: d :: e :: f :: g :: h :: rest =>
      (((((((a * 256 + b) * 256 + c) * 256 + d) * 256 + e) * 256 + f) * 256 + g) * 256 + h)
        :: toWords64 rest
  | _ => []

/-- SHA padding: append `0x80`, zeros, then the bit length in `lenBytes` bytes,
reaching a multiple of `blockBytes`. -/
def shaPad (blockBytes lenBytes : Nat) (msg : List Nat) : List Nat :=
  let L := msg.length
  let zeros := (blockBytes - (L + 1 + lenBytes) % blockBytes) % blockBytes
  msg ++ 0x80 :: List.replicate zeros 0 ++ beBytes lenBytes (8 * L)

/-! ## SHA-256 -/

/-- The 64 SHA-256 round constants (FIPS 180-4), written in decimal. -/
def sha256K : List Nat :=
  [1116352408, 1899447441, 3049323471, 3921009573, 961987163,
   1508970993, 2453635748, 2870763221, 3624381080, 310598401,
   607225278, 1426881987, 1925078388, 2162078206, 2614888103,
   3248222580, 3835390401, 4022224774, 264347078, 604807628,
   770255983, 1249150122, 1555081692, 1996064986, 2554220882,
   2821834349, 2952996808, 3210313671, 3336571891, 3584528711,
   113926993, 338241895, 666307205, 773529912, 1294757372,
   1396182291, 1695183700, 1986661051, 2177026350, 2456956037,
   2730485921, 2820302411, 3259730800, 3345764771, 3516065817,
   3600352804, 4094571909, 275423344, 430227734, 506948616,
   659060556, 883997877, 958139571, 1322822218, 1537002063,
   1747873779, 1955562222, 2024104815, 2227730452, 2361852424,
   2428436474, 2756734187, 3204031479, 3329325298]

/-- The eight SHA-256 initial hash values, in decimal. -/
def sha256H0 : List Nat :=
  [1779033703, 3144134277, 1013904242, 2773480762,
   1359893119, 2600822924, 528734635, 1541459225]

/-- One extension step of the SHA-256 message schedule; `w` is the schedule so
far in reverse order (head = most recent word). -/
def sha256ExtStep (w : List Nat) : Nat :=
  let wt2 := w.getD 1 0
  let wt7 := w.getD 6 0
  let wt15 := w.getD 14 0
  let wt16 := w.getD 15 0
  let s0 := xor3 (rotr32 7 wt15) (rotr32 18 wt15) (wt15 >>> 3)
  let s1 := xor3 (rotr32 17 wt2) (rotr32 19 wt2) (wt2 >>> 10)
  add32 (add32 s1 wt7) (add32 s0 wt16)

def sha256Extend : Nat → List Nat → List Nat
  | 0, w => w
  | n + 1, w => sha256Extend n (sha256ExtStep w :: w)

/-- One SHA-256 compression round on state `[a,b,c,d,e,f,g,h]`. -/
def sha256Round (k w : Nat) : List Nat → List Nat
  | [a, b, c, d, e, f, g, h] =>
    let S1 := xor3 (rotr32 6 e) (rotr32 11 e) (rotr32 25 e)
    let ch := Nat.xor (e &&& f) (not32 e &&& g)
    let t1 := add32 h (add32 S1 (add32 ch (add32 k w)))
    let S0 := xor3 (rotr32 2 a) (rotr32 13 a) (rotr32 22 a)
    let mj := xor3 (a &&& b) (a &&& c) (b &&& c)
    let t2 := add32 S0 mj
    [add32 t1 t2, a, b, c, add32 d t1, e, f, g]
  | st => st

def sha256Block (h : List Nat) (block : List Nat) : List Nat :=
  let sched := (sha256Extend 48 (toWords32 block).reverse).reverse
  let st := (sha256K.zip sched).foldl (fun s kw => sha256Round kw.1 kw.2 s) h
  (h.zip st).map fun p => add32 p.1 p.2

/-- SHA-256 of a byte sequence, producing the 32-byte digest. -/
def sha256 (msg : List Nat) : List Nat :=
  let hs := (chunks 64 (shaPad 64 8 msg)).foldl sha256Block sha256H0
  hs.foldr (fun w acc => beBytes 4 w ++ acc) []

/-! ## SHA-512 -/

/-- The 80 SHA-512 round constants (FIPS 180-4), written in decimal. -/
def sha512K : List Nat :=
  [4794697086780616226, 8158064640168781261, 13096744586834688815,
   16840607885511220156, 4131703408338449720, 6480981068601479193,
   10538285296894168987, 12329834152419229976, 15566598209576043074,
   1334009975649890238, 2608012711638119052, 6128411473006802146,
   8268148722764581231, 9286055187155687089, 11230858885718282805,
   13951009754708518548, 16472876342353939154, 17275323862435702243,
   1135362057144423861, 2597628984639134821, 3308224258029322869,
   5365058923640841347, 6679025012923562964, 8573033837759648693,
   10970295158949994411, 12119686244451234320, 12683024718118986047,
   13788192230050041572, 14330467153632333762, 15395433587784984357,
   489312712824947311, 1452737877330783856, 2861767655752347644,
   3322285676063803686, 5560940570517711597, 5996557281743188959,
   7280758554555802590, 8532644243296465576, 9350256976987008742,
   10552545826968843579, 11727347734174303076, 12113106623233404929,
   14000437183269869457, 14369950271660146224, 15101387698204529176,
   15463397548674623760, 17586052441742319658, 1182934255886127544,
   1847814050463011016, 2177327727835720531, 2830643537854262169,
   3796741975233480872, 4115178125766777443, 5681478168544905931,
   6601373596472566643, 7507060721942968483, 8399075790359081724,
   8693463985226723168, 9568029438360202098, 10144078919501101548,
   10430055236837252648, 11840083180663258601, 13761210420658862357,
   14299343276471374635, 14566680578165727644, 15097957966210449927,
   16922976911328602910, 17689382322260857208, 500013540394364858,
   748580250866718886, 1242879168328830382, 1977374033974150939,
   2944078676154940804, 3659926193048069267, 4368137639120453308,
   4836135668995329356, 5532061633213252278, 6448918945643986474,
   6902733635092675308, 7801388544844847127]

/-- The eight SHA-512 initial hash values, in decimal. -/
def sha512H0 : List Nat :=
  [7640891576956012808, 13503953896175478587, 4354685564936845355,
   11912009170470909681, 5840696475078001361, 11170449401992604703,
   2270897969802886507, 6620516959819538809]

def sha512ExtStep (w : List Nat) : Nat :=
  let wt2 := w.getD 1 0
  let wt7 := w.getD 6 0
  let wt15 := w.getD 14 0
  let wt16 := w.getD 15 0
  let s0 := xor3 (rotr64 1 wt15) (rotr64 8 wt15) (wt15 >>> 7)
  let s1 := xor3 (rotr64 19 wt2) (rotr64 61 wt2) (wt2 >>> 6)
  add64 (add64 s1 wt7) (add64 s0 wt16)

def sha512Extend : Nat → List Nat → List Nat
  | 0, w => w
  | n + 1, w => sha512Extend n (sha512ExtStep w :: w)

def sha512Round (k w : Nat) : List Nat → List Nat
  | [a, b, c, d, e, f, g, h] =>
    let S1 := xor3 (rotr64 14 e) (rotr64 18 e) (rotr64 41 e)
    let ch := Nat.xor (e &&& f) (not64 e &&& g)
    let t1 := add64 h (add64 S1 (add64 ch (add64 k w)))
    let S0 := xor3 (rotr64 28 a) (rotr64 34 a) (rotr64 39 a)
    let mj := xor3 (a &&& b) (a &&& c) (b &&& c)
    let t2 := add64 S0 mj
    [add64 t1 t2, a, b, c, add64 d t1, e, f, g]
  | st => st

def sha512Block (h : List Nat) (block : List Nat) : List Nat :=
  let sched := (sha512Extend 64 (toWords64 block).reverse).reverse
  let st := (sha512K.zip sched).foldl (fun s kw => sha512Round kw.1 kw.2 s) h
  (h.zip st).map fun p => add64 p.1 p.2

/-- SHA-512 of a byte sequence, producing the 64-byte digest. -/
def sha512 (msg : List Nat) : List Nat :=
  let hs := (chunks 128 (shaPad 128 16 msg)).foldl sha512Block sha512H0
  hs.foldr (fun w acc => beBytes 8 w ++ acc) []

/-! ## HMAC -/

/-- HMAC over an arbitrary hash with the given block size (Go `crypto/hmac`). -/
def hmac (hash : List Nat → List Nat) (blockSize : Nat) (key msg : List Nat) : List Nat :=
  let k0 := if blockSize < key.length then hash key else key
  let k := k0 ++ List.replicate (blockSize - k0.length) 0
  hash (k.map (Nat.xor 0x5c) ++ hash (k.map (Nat.xor 0x36) ++ msg))

def hmacSha256 (key msg : List Nat) : List Nat := hmac sha256 64 key msg
def hmacSha512 (key msg : List Nat) : List Nat := hmac sha512 128 key msg

/-! Standard test vectors, checked by kernel evaluation. -/

theorem sha256_empty_vector :
    hexEncode (sha256 []) =
      "e3b0c44298fc1c149afbf4c8996fb92427ae41e4649b934ca495991b7852b855" := by
  decide

theorem sha256_abc_vector :
    hexEncode (sha256 (strBytes "abc")) =
      "ba7816bf8f01cfea414140de5dae2223b00361a396177a9cb410ff61f20015ad" := by
  decide

theorem sha512_empty_vector :
    hexEncode (sha512 []) =
      "cf83e1357eefb8bdf1542850d66d8007d620e4050b5715dc83f4a921d36ce9ce47d0d13c5d85f2b0ff8318d2877eec2f63b931bd47417a81a538327af927da3e" := by
  decide

theorem sha512_abc_vector :
    hexEncode (sha512 (strBytes "abc")) =
      "ddaf35a193617abacc417349ae20413112e6fa4e89a97ea20a9eeee64b55d39a2192992a274fc1a836ba3c23a3feebbd454d4423643ce80e2a9ac94fa54ca49f" := by
  decide

theorem hmac_sha256_rfc4231_tc2 :
    hexEncode (hmacSha256 (strBytes "Jefe") (strBytes "what do ya want for nothing?")) =
      "5bdcc146bf60754e6a042426089575c75a003f089d2739839dec58b964ec3843" := by
  decide

theorem hmac_sha512_rfc4231_tc2 :
    hexEncode (hmacSha512 (strBytes "Jefe") (strBytes "what do ya want for nothing?")) =
      "164b7a7bfcf819e2e395fbe73b56e0a387bd64222e831fd610270cd7ea2505549758bf75c05a994a6d034f65f8f0e6fdcaeab1a34d4a6b4b636e070a38bce737" := by
  decide

/-! ## JSON values

Response bodies and JSON request payloads are modelled by a small JSON AST.
`jsonRender` models Go `json.Marshal` serialization of such a value (compact,
HTML-escaping as Go does by default). `json.Unmarshal` of the specific
structs used by the clients (`APIError`, `CommonResponse`) is modelled by
dedicated functions below; whether a raw body text parses as JSON at all is
carried as an `Option Json` next to the raw text in `HttpResp`, since the
generic JSON parser belongs to the Go standard library, not this repository.
-/

inductive Json where
  | null : Json
  | bool (b : Bool) : Json
  | num (n : Int) : Json
  | str (s : String) : Json
  | arr (xs : List Json) : Json
  | obj (fields : List (String × Json)) : Json

/-- JSON string escaping as Go `json.Marshal` performs it (HTML escaping on). -/
def jsonEscapeChar (c : Char) : List Char :=
  if c = '"' then ['\\', '"']
  else if c = '\\' then ['\\', '\\']
  else if c = '\n' then ['\\', 'n']
  else if c = '\r' then ['\\', 'r']
  else if c = '\t' then ['\\', 't']
  else if c = '<' then ['\\', 'u', '0', '0', '3', 'c']
  else if c = '>' then ['\\', 'u', '0', '0', '3', 'e']
  else if c = '&' then ['\\', 'u', '0', '0', '2', '6']
  else if c.toNat < 32 then ['\\', 'u', '0', '0', hexDigit (c.toNat / 16), hexDigit (c.toNat % 16)]
  else [c]

def jsonRenderString (s : String) : String :=
  "\"" ++ String.mk (s.data.foldr (fun c acc => jsonEscapeChar c ++ acc) []) ++ "\""

mutual

def jsonRender : Json → String
  | .null => "null"
  | .bool true => "true"
  | .bool false => "false"
  | .num n => toString n
  | .str s => jsonRenderString s
  | .arr xs => "[" ++ jsonRenderArr xs ++ "]"
  | .obj fs => "\x7b" ++ jsonRenderObj fs ++ "\x7d"

def jsonRenderArr : List Json → String
  | [] => ""
  | [x] => jsonRender x
  | x :: xs => jsonRender x ++ "," ++ jsonRenderArr xs

def jsonRenderObj : List (String × Json) → String
  | [] => ""
  | [(k, v)] => jsonRenderString k ++ ":" ++ jsonRender v
  | (k, v) :: fs => jsonRenderString k ++ ":" ++ jsonRender v ++ "," ++ jsonRenderObj fs

end

/-- Field lookup in a JSON object, as `json.Unmarshal` matches struct tags. -/
def jsonField (fs : List (String × Json)) (name : String) : Option Json :=
  fs.lookup name

/-- Decoding a `string`-typed struct field: absent or `null` leaves the zero
value `""`; a non-string value makes `json.Unmarshal` fail. -/
def strField (fs : List (String × Json)) (name : String) : Option String :=
  match jsonField fs name with
  | none => some ""
  | some (.str s) => some s
  | some .null => some ""
  | some _ => none

/-- Decoding an `int`-typed struct field: absent or `null` leaves `0`; a
non-number makes `json.Unmarshal` fail. -/
def intField (fs : List (String × Json)) (name : String) : Option Int :=
  match jsonField fs name with
  | none => some (0 : Int)
  | some (.num i) => some i
  | some .null => some (0 : Int)
  | some _ => none

/-! ## Go `net/url` query escaping and the two query encoders -/

/-- Bytes Go's `url.QueryEscape` leaves unescaped: alphanumerics and `-_.~`. -/
def isUnreservedByte (b : Nat) : Bool :=
  (48 ≤ b && b ≤ 57) || (65 ≤ b && b ≤ 90) || (97 ≤ b && b ≤ 122) ||
    b == 45 || b == 95 || b == 46 || b == 126

def queryEscapeByte (b : Nat) : List Char :=
  if b == 32 then ['+']
  else if isUnreservedByte b then [Char.ofNat b]
  else ['%', hexDigitUpper (b / 16), hexDigitUpper (b % 16)]

/-- Go `url.QueryEscape`. -/
def queryEscape (s : String) : String :=
  String.mk ((strBytes s).foldr (fun b acc => queryEscapeByte b ++ acc) [])

/-- Lexicographic comparison of character lists by code point. Go's
`sort.Strings` compares UTF-8 byte sequences; UTF-8 preserves code-point
order, so this is the same ordering. -/
def charListLe : List Char → List Char → Bool
  | [], _ => true
  | _ :: _, [] => false
  | a :: as, b :: bs =>
    if a.toNat < b.toNat then true
    else if b.toNat < a.toNat then false
    else charListLe as bs

/-- Strict version of `charListLe`. -/
def charListLt : List Char → List Char → Bool
  | [], [] => false
  | [], _ :: _ => true
  | _ :: _, [] => false
  | a :: as, b :: bs =>
    if a.toNat < b.toNat then true
    else if b.toNat < a.toNat then false
    else charListLt as bs

def goStrLe (a b : String) : Bool := charListLe a.data b.data

def goStrLt (a b : String) : Bool := charListLt a.data b.data

def insertKey (k : String) : List String → List String
  | [] => [k]
  | x :: xs => if goStrLe k x then k :: x :: xs else x :: insertKey k xs

/-- `sort.Strings` over a collected key list (modelled by insertion sort;
on duplicate-free key lists every sort yields the same result). -/
def sortStrings : List String → List String
  | [] => []
  | k :: ks => insertKey k (sortStrings ks)

/-- Joining with `&`, writing a separator only when output already exists,
as both Go encoders do with their string builders. -/
def joinAmp : List String → String
  | [] => ""
  | [x] => x
  | x :: xs => x ++ "&" ++ joinAmp xs

/-- XT.com `sortAndEncodeParams`: collect the map's keys, sort them, and emit
`key=value` pairs (both URL-escaped) joined by `&`. The Go map is modelled as
an association list whose order stands for the map's iteration order. -/
def sortAndEncodeParams (params : List (String × String)) : String :=
  if params.isEmpty then ""
  else
    let keys := sortStrings (params.map Prod.fst)
    joinAmp (keys.map fun k => queryEscape k ++ "=" ++ queryEscape ((params.lookup k).getD ""))

/-- Go `url.Values.Encode` (used by the Gate.io client): sort keys, then for
each key emit one escaped `key=value` pair per value. -/
def valuesEncode (v : List (String × List String)) : String :=
  let keys := sortStrings (v.map Prod.fst)
  joinAmp (keys.map (fun k =>
    ((v.lookup k).getD []).map fun x => queryEscape k ++ "=" ++ queryEscape x)).flatten

/-! ## HTTP request/response model -/

structure HttpRequest where
  method : String
  url : String
  headers : List (String × String)
  body : List Nat
  deriving DecidableEq

/-- An HTTP response as the dispatcher sees it after `io.ReadAll`: the status
code, the raw body text, and the result of parsing that text as JSON
(`none` when `json.Unmarshal` would reject it as malformed). -/
structure HttpResp where
  status : Nat
  rawBody : String
  jsonBody : Option Json

/-- The only build-phase failure the embedding needs: the clients'
missing-credential check. -/
inductive BuildError where
  | missingCredentials
  deriving DecidableEq

/-! ## Gate.io client (`connectors/gateio`) -/

structure GateClient where
  apiKey : String
  secretKey : String
  baseURL : String

/-- `gateio.NewClient` (transport configuration is outside the embedding). -/
def gateNewClient (apiKey secretKey : String) : GateClient :=
  { apiKey := apiKey, secretKey := secretKey, baseURL := "https://api.gateio.ws" }

def gateApiV4 : String := "/api/v4"

/-- `gateio.Client.generateSignature`: SHA-512 the body, build the five-line
signing string, HMAC-SHA512 it with the secret key, hex-encode. The body is
passed as its byte sequence (Go's `string(bodyBytes)` round-trip is the
identity on bytes). -/
def gateGenerateSignature (c : GateClient) (method path query : String)
    (body : List Nat) (timestamp : String) : String :=
  let hashedPayload := hexEncode (sha512 body)
  let signStr :=
    method ++ "\n" ++ path ++ "\n" ++ query ++ "\n" ++ hashedPayload ++ "\n" ++ timestamp
  hexEncode (hmacSha512 (strBytes c.secretKey) (strBytes signStr))

/-- `gateio.APIError`. -/
structure APIError where
  label : String
  message : String
  deriving DecidableEq

/-- `json.Unmarshal` of a body into `gateio.APIError`. -/
def unmarshalAPIError : Json → Option APIError
  | .obj fs => do
      let l ← strField fs "label"
      let m ← strField fs "message"
      pure { label := l, message := m }
  | .null => some { label := "", message := "" }
  | _ => none

/-- The query string of a Gate.io request (`queryParams.Encode()` when a map
was passed, `""` otherwise). -/
def gateQueryString (queryParams : Option (List (String × List String))) : String :=
  match queryParams with
  | none => ""
  | some qp => valuesEncode qp

/-- The body bytes of a Gate.io request: `json.Marshal(bodyPayload)` when a
payload was passed, the empty byte slice otherwise. -/
def gateBodyBytes (bodyPayload : Option Json) : List Nat :=
  match bodyPayload with
  | none => []
  | some j => strBytes (jsonRender j)

/-- The request-construction phase of `gateio.Client.sendRequest`, everything
up to (but not including) `httpClient.Do`. `now` is the wall clock read
(`time.Now().Unix()`); a JSON body payload is given as a `Json` value and
marshalled by `jsonRender`. -/
def gateBuildRequest (c : GateClient) (method endpointPath : String)
    (queryParams : Option (List (String × List String))) (bodyPayload : Option Json)
    (now : Nat) : Except BuildError HttpRequest :=
  let isPrivate := c.apiKey != "" && c.secretKey != ""
  let queryString := gateQueryString queryParams
  let fullURL := c.baseURL ++ gateApiV4 ++ endpointPath ++
    (if queryString != "" then "?" ++ queryString else "")
  let bodyBytes : List Nat := gateBodyBytes bodyPayload
  let baseHeaders := [("Accept", "application/json")] ++
    (if method == "POST" || method == "PUT" || method == "DELETE" then
      [("Content-Type", "application/json")] else [])
  if isPrivate then
    if c.apiKey == "" || c.secretKey == "" then
      .error .missingCredentials
    else
      let timestamp := toString now
      let signature :=
        gateGenerateSignature c method (gateApiV4 ++ endpointPath) queryString bodyBytes timestamp
      .ok { method := method, url := fullURL,
            headers := baseHeaders ++ [("KEY", c.apiKey), ("Timestamp", timestamp), ("SIGN", signature)],
            body := bodyBytes }
  else
    .ok { method := method, url := fullURL, headers := baseHeaders, body := bodyBytes }

/-- The classified outcome of a Gate.io call; `α` is the caller's target type. -/
inductive GateOutcome (α : Type) where
  | ok : Option α → GateOutcome α
  | apiError (label message : String) : GateOutcome α
  | genericHttp (status : Nat) (body : String) : GateOutcome α
  | decodeError (body : String) : GateOutcome α
  | buildError (e : BuildError) : GateOutcome α

/-- The response-handling phase of `gateio.Client.sendRequest`: on status
`>= 400` try to parse the body as `APIError` (a parse that succeeds with a
non-empty label is returned as the structured error, anything else becomes
the generic status+body error); otherwise decode into the caller's target,
when one was supplied. `target` models the caller's `interface{}` together
with `json.Unmarshal` into it: a function from the parsed body to `none` on
type mismatch. -/
def gateHandleResponse {α : Type} (resp : HttpResp)
    (target : Option (Json → Option α)) : GateOutcome α :=
  if 400 ≤ resp.status then
    match resp.jsonBody with
    | some j =>
      match unmarshalAPIError j with
      | some e =>
        if e.label != "" then .apiError e.label e.message
        else .genericHttp resp.status resp.rawBody
      | none => .genericHttp resp.status resp.rawBody
    | none => .genericHttp resp.status resp.rawBody
  else
    match target with
    | none => .ok none
    | some dec =>
      match resp.jsonBody with
      | some j =>
        match dec j with
        | some v => .ok (some v)
        | none => .decodeError resp.rawBody
      | none => .decodeError resp.rawBody

/-- `gateio.Client.sendRequest` end to end, over an abstract transport. The
Boolean records whether `httpClient.Do` was invoked. -/
def gateSendRequest {α : Type} (c : GateClient) (method endpointPath : String)
    (queryParams : Option (List (String × List String))) (bodyPayload : Option Json)
    (now : Nat) (transport : HttpRequest → HttpResp)
    (target : Option (Json → Option α)) : Bool × GateOutcome α :=
  match gateBuildRequest c method endpointPath queryParams bodyPayload now with
  | .error e => (false, .buildError e)
  | .ok req => (true, gateHandleResponse (transport req) target)

/-! ## XT.com client (`connectors/xt`) -/

structure XtClient where
  apiKey : String
  secretKey : String
  usdtBaseURL : String
  coinBaseURL : String
  recvWindow : String

/-- `xt.NewClient`. -/
def xtNewClient (apiKey secretKey : String) : XtClient :=
  { apiKey := apiKey, secretKey := secretKey,
    usdtBaseURL := "https://fapi.xt.com", coinBaseURL := "https://dapi.xt.com",
    recvWindow := "5000" }

/-- `xt.Client.SetRecvWindow` (`strconv.FormatInt(ms, 10)`). -/
def xtSetRecvWindow (c : XtClient) (ms : Int) : XtClient :=
  { c with recvWindow := toString ms }

/-- `xt.Client.generateSignature`: header part `validate-appkey=…&validate-timestamp=…`,
data part `#path[#query][#body]` with empty segments dropped together with
their `#`, HMAC-SHA256 of the concatenation, hex-encoded. -/
def xtGenerateSignature (c : XtClient) (timestamp path sortedQuery bodyString : String) : String :=
  let headerPart := "validate-appkey=" ++ c.apiKey ++ "&validate-timestamp=" ++ timestamp
  let dataPart := "#" ++ path ++
    (if sortedQuery != "" then "#" ++ sortedQuery else "") ++
    (if bodyString != "" then "#" ++ bodyString else "")
  let signStr := headerPart ++ dataPart
  hexEncode (hmacSha256 (strBytes c.secretKey) (strBytes signStr))

/-- `xt.CommonResponse` (the `error` raw message is kept as rendered text). -/
structure CommonResponse where
  returnCode : Int
  msgInfo : String
  errorRaw : Option String
  deriving DecidableEq

/-- `json.Unmarshal` of a body into `xt.CommonResponse`; the `error` field is
`json.RawMessage` and accepts any JSON value. -/
def unmarshalCommon : Json → Option CommonResponse
  | .obj fs => do
      let rc ← intField fs "returnCode"
      let mi ← strField fs "msgInfo"
      pure { returnCode := rc, msgInfo := mi, errorRaw := (jsonField fs "error").map jsonRender }
  | .null => some { returnCode := 0, msgInfo := "", errorRaw := none }
  | _ => none

/-- The body argument of `xt.Client.sendRequest`: a form map (sorted and
form-encoded before signing and transmission) or a JSON payload. -/
inductive XtBody where
  | form (params : List (String × String)) : XtBody
  | jsonBody (j : Json) : XtBody

/-- The XT body string used both for the signature and as the request body:
sorted-and-encoded form data, or the marshalled JSON document. -/
def xtBodyString (bodyParams : Option XtBody) : String :=
  match bodyParams with
  | none => ""
  | some (.form m) => sortAndEncodeParams m
  | some (.jsonBody j) => jsonRender j

/-- The query-string part of the XT signature input: the sorted query string
for GET and DELETE, the empty string for every other method. -/
def xtSigQuery (method sortedQueryString : String) : String :=
  if method == "GET" || method == "DELETE" then sortedQueryString else ""

/-- The Content-Type header value chosen from the body kind. -/
def xtContentType (bodyParams : Option XtBody) : String :=
  match bodyParams with
  | none => ""
  | some (.form _) => "application/x-www-form-urlencoded"
  | some (.jsonBody _) => "application/json"

/-- The request-construction phase of `xt.Client.sendRequest`, everything up
to (but not including) `httpClient.Do`; in the Go source the credential check
sits after `http.NewRequestWithContext` but still before any network call.
`nowMs` is `time.Now().UnixMilli()`. -/
def xtBuildRequest (c : XtClient) (method baseURL path : String)
    (queryParams : List (String × String)) (bodyParams : Option XtBody)
    (isPrivate : Bool) (nowMs : Nat) : Except BuildError HttpRequest :=
  let sortedQueryString := sortAndEncodeParams queryParams
  let fullURL := baseURL ++ path ++
    (if sortedQueryString != "" then "?" ++ sortedQueryString else "")
  let bodyStringForSig := xtBodyString bodyParams
  let contentType := xtContentType bodyParams
  let baseHeaders :=
    (if contentType != "" then [("Content-Type", contentType)] else []) ++
      [("Accept", "application/json")]
  if isPrivate then
    if c.apiKey == "" || c.secretKey == "" then
      .error .missingCredentials
    else
      let timestamp := toString nowMs
      let sigQueryPart := xtSigQuery method sortedQueryString
      let signature := xtGenerateSignature c timestamp path sigQueryPart bodyStringForSig
      .ok { method := method, url := fullURL,
            headers := baseHeaders ++
              [("validate-appkey", c.apiKey), ("validate-timestamp", timestamp),
               ("validate-signature", signature)],
            body := strBytes bodyStringForSig }
  else
    .ok { method := method, url := fullURL, headers := baseHeaders,
          body := strBytes bodyStringForSig }

/-- The classified outcome of an XT.com call. -/
inductive XtOutcome (α : Type) where
  | ok : Option α → XtOutcome α
  | apiError (code : Int) (msg : String) : XtOutcome α
  | unmarshalError (body : String) : XtOutcome α
  | decodeError (body : String) : XtOutcome α
  | buildError (e : BuildError) : XtOutcome α

/-- The response-handling phase of `xt.Client.sendRequest`: unmarshal the body
into `CommonResponse` first (before ever looking at the HTTP status, which the
Go code never inspects); a non-zero `returnCode` is the structured exchange
error; otherwise decode into the caller's target when one was supplied. -/
def xtHandleResponse {α : Type} (resp : HttpResp)
    (target : Option (Json → Option α)) : XtOutcome α :=
  match resp.jsonBody with
  | none => .unmarshalError resp.rawBody
  | some j =>
    match unmarshalCommon j with
    | none => .unmarshalError resp.rawBody
    | some cr =>
      if cr.returnCode != 0 then .apiError cr.returnCode cr.msgInfo
      else
        match target with
        | none => .ok none
        | some dec =>
          match dec j with
          | some v => .ok (some v)
          | none => .decodeError resp.rawBody

/-- `xt.Client.sendRequest` end to end, over an abstract transport. The
Boolean records whether `httpClient.Do` was invoked. -/
def xtSendRequest {α : Type} (c : XtClient) (method baseURL path : String)
    (queryParams : List (String × String)) (bodyParams : Option XtBody)
    (isPrivate : Bool) (nowMs : Nat) (transport : HttpRequest → HttpResp)
    (target : Option (Json → Option α)) : Bool × XtOutcome α :=
  match xtBuildRequest c method baseURL path queryParams bodyParams isPrivate nowMs with
  | .error e => (false, .buildError e)
  | .ok req => (true, xtHandleResponse (transport req) target)

/-! ## Lemmas about the key ordering and sorting -/

theorem char_eq_of_toNat_eq {a b : Char} (h : a.toNat = b.toNat) : a = b := by
  exact_mod_cast Char.ext_iff.mpr (by exact UInt32.toNat.inj h)

theorem charListLe_total : ∀ as bs, charListLe as bs = false → charListLe bs as = true := by
  intro as
  induction as with
  | nil => intro bs h; simp [charListLe] at h
  | cons a as ih =>
    intro bs h
    cases bs with
    | nil => simp [charListLe]
    | cons b bs =>
      by_cases h1 : a.toNat < b.toNat
      · simp [charListLe, h1] at h
      · by_cases h2 : b.toNat < a.toNat
        · simp [charListLe, h1, h2]
        · simp [charListLe, h1, h2] at h ⊢
          exact ih bs h

theorem charListLe_trans :
    ∀ as bs cs, charListLe as bs = true → charListLe bs cs = true → charListLe as cs = true := by
  intro as
  induction as with
  | nil => intro bs cs _ _; simp [charListLe]
  | cons a as ih =>
    intro bs cs hab hbc
    cases bs with
    | nil => simp [charListLe] at hab
    | cons b bs =>
      cases cs with
      | nil => simp [charListLe] at hbc
      | cons c cs =>
        by_cases hab1 : a.toNat < b.toNat
        · by_cases hbc1 : b.toNat < c.toNat
          · simp [charListLe, show a.toNat < c.toNat by omega]
          · by_cases hbc2 : c.toNat < b.toNat
            · simp [charListLe, hbc1, hbc2] at hbc
            · simp [charListLe, show a.toNat < c.toNat by omega]
        · by_cases hab2 : b.toNat < a.toNat
          · simp [charListLe, hab1, hab2] at hab
          · by_cases hbc1 : b.toNat < c.toNat
            · simp [charListLe, show a.toNat < c.toNat by omega]
            · by_cases hbc2 : c.toNat < b.toNat
              · simp [charListLe, hbc1, hbc2] at hbc
              · simp [charListLe, hab1, hab2] at hab
                simp [charListLe, hbc1, hbc2] at hbc
                simp [charListLe, show ¬a.toNat < c.toNat by omega,
                  show ¬c.toNat < a.toNat by omega]
                exact ih bs cs hab hbc

theorem charListLt_asymm :
    ∀ as bs, charListLt as bs = true → charListLt bs as = true → False := by
  intro as
  induction as with
  | nil => intro bs h1 h2; cases bs <;> simp [charListLt] at h1 h2
  | cons a as ih =>
    intro bs h1 h2
    cases bs with
    | nil => simp [charListLt] at h1
    | cons b bs =>
      by_cases hc1 : a.toNat < b.toNat
      · simp [charListLt, show ¬b.toNat < a.toNat by omega, hc1] at h2
      · by_cases hc2 : b.toNat < a.toNat
        · simp [charListLt, hc1, hc2] at h1
        · simp [charListLt, hc1, hc2] at h1 h2
          exact ih bs h1 h2

theorem charListLt_of_le_of_ne :
    ∀ as bs, charListLe as bs = true → as ≠ bs → charListLt as bs = true := by
  intro as
  induction as with
  | nil =>
    intro bs _ hne
    cases bs with
    | nil => exact absurd rfl hne
    | cons b bs => simp [charListLt]
  | cons a as ih =>
    intro bs hle hne
    cases bs with
    | nil => simp [charListLe] at hle
    | cons b bs =>
      by_cases hc1 : a.toNat < b.toNat
      · simp [charListLt, hc1]
      · by_cases hc2 : b.toNat < a.toNat
        · simp [charListLe, hc1, hc2] at hle
        · have hab : a = b := char_eq_of_toNat_eq (by omega)
          simp [charListLe, hc1, hc2] at hle
          simp [charListLt, hc1, hc2]
          refine ih bs hle ?_
          intro hcontra
          exact hne (by rw [hab, hcontra])

theorem goStrLe_total {a b : String} (h : goStrLe a b = false) : goStrLe b a = true :=
  charListLe_total a.data b.data h

theorem goStrLt_of_le_of_ne {a b : String} (h : goStrLe a b = true) (hne : a ≠ b) :
    goStrLt a b = true := by
  refine charListLt_of_le_of_ne a.data b.data h ?_
  intro hc
  refine hne ?_
  cases a
  cases b
  exact congrArg String.mk (by simpa using hc)

theorem goStrLt_asymm {a b : String} (h1 : goStrLt a b = true) (h2 : goStrLt b a = true) :
    False :=
  charListLt_asymm a.data b.data h1 h2

theorem insertKey_perm (k : String) (l : List String) : List.Perm (insertKey k l) (k :: l) := by
  induction l with
  | nil => exact List.Perm.refl _
  | cons x xs ih =>
    cases hkx : goStrLe k x with
    | true =>
      simp only [insertKey, hkx, if_true]
      exact List.Perm.refl _
    | false =>
      simp only [insertKey, hkx, if_false]
      exact (List.Perm.cons x ih).trans (List.Perm.swap k x xs)

theorem sortStrings_perm (l : List String) : List.Perm (sortStrings l) l := by
  induction l with
  | nil => exact List.Perm.refl _
  | cons k ks ih => exact (insertKey_perm k (sortStrings ks)).trans (List.Perm.cons k ih)

theorem insertKey_pairwise {k : String} {l : List String}
    (h : List.Pairwise (fun a b => goStrLe a b = true) l) :
    List.Pairwise (fun a b => goStrLe a b = true) (insertKey k l) := by
  induction l with
  | nil => simp [insertKey]
  | cons x xs ih =>
    rcases List.pairwise_cons.mp h with ⟨hx, hxs⟩
    cases hkx : goStrLe k x with
    | true =>
      simp only [insertKey, hkx, if_true]
      refine List.pairwise_cons.mpr ⟨?_, h⟩
      intro y hy
      rcases List.mem_cons.mp hy with rfl | hy
      · exact hkx
      · exact charListLe_trans _ _ _ hkx (hx y hy)
    | false =>
      simp only [insertKey, hkx, if_false]
      refine List.pairwise_cons.mpr ⟨?_, ih hxs⟩
      intro y hy
      rcases List.mem_cons.mp ((insertKey_perm k xs).mem_iff.mp hy) with rfl | hy
      · exact goStrLe_total hkx
      · exact hx y hy

theorem sortStrings_pairwise (l : List String) :
    List.Pairwise (fun a b => goStrLe a b = true) (sortStrings l) := by
  induction l with
  | nil => simp [sortStrings]
  | cons k ks ih => exact insertKey_pairwise ih

theorem sortStrings_eq_of_perm {l₁ l₂ : List String} (h : List.Perm l₁ l₂) (hn : l₁.Nodup) :
    sortStrings l₁ = sortStrings l₂ := by
  haveI : IsAntisymm String (fun a b => goStrLt a b = true) :=
    ⟨fun a b h1 h2 => absurd h2 (fun h2 => goStrLt_asymm h1 h2)⟩
  have strict : ∀ l : List String, l.Nodup →
      List.Pairwise (fun a b => goStrLt a b = true) (sortStrings l) := by
    intro l hl
    have hnodup : (sortStrings l).Nodup := (sortStrings_perm l).nodup_iff.mpr hl
    have hboth := (sortStrings_pairwise l).and hnodup
    exact hboth.imp fun hab => goStrLt_of_le_of_ne hab.1 hab.2
  exact List.eq_of_perm_of_sorted
    ((sortStrings_perm l₁).trans (h.trans (sortStrings_perm l₂).symm))
    (strict l₁ hn) (strict l₂ (h.nodup_iff.mp hn))

theorem lookup_eq_of_perm {β : Type} {l₁ l₂ : List (String × β)} (h : List.Perm l₁ l₂)
    (hn : (l₁.map Prod.fst).Nodup) (k : String) : l₁.lookup k = l₂.lookup k := by
  induction h with
  | nil => rfl
  | cons x h ih =>
    obtain ⟨x1, x2⟩ := x
    simp only [List.map_cons, List.nodup_cons] at hn
    simp only [List.lookup_cons]
    cases k == x1 <;> simp [ih hn.2]
  | swap x y l =>
    obtain ⟨x1, x2⟩ := x
    obtain ⟨y1, y2⟩ := y
    have hxy : y1 ≠ x1 := by
      simp only [List.map_cons, List.nodup_cons, List.mem_cons] at hn
      tauto
    simp only [List.lookup_cons]
    by_cases hky : k = y1
    · have h1 : (k == y1) = true := beq_iff_eq.mpr hky
      have h2 : (k == x1) = false := by
        refine beq_eq_false_iff_ne.mpr ?_
        intro hc
        exact hxy (by rw [← hky, hc])
      simp [h1, h2]
    · have h1 : (k == y1) = false := beq_eq_false_iff_ne.mpr hky
      cases h2 : k == x1 <;> simp [h1, h2]
  | trans h₁ h₂ ih₁ ih₂ =>
    have hn₂ := ((h₁.map Prod.fst).nodup_iff).mp hn
    rw [ih₁ hn, ih₂ hn₂]

theorem sortAndEncodeParams_perm {p₁ p₂ : List (String × String)} (h : List.Perm p₁ p₂)
    (hn : (p₁.map Prod.fst).Nodup) : sortAndEncodeParams p₁ = sortAndEncodeParams p₂ := by
  unfold sortAndEncodeParams
  have hlen := h.length_eq
  have hempty : p₁.isEmpty = p₂.isEmpty := by
    cases p₁ <;> cases p₂ <;> simp_all
  rw [hempty]
  have hkeys : sortStrings (p₁.map Prod.fst) = sortStrings (p₂.map Prod.fst) :=
    sortStrings_eq_of_perm (h.map Prod.fst) hn
  have hlook : ∀ k, p₁.lookup k = p₂.lookup k := lookup_eq_of_perm h hn
  simp only [hkeys, hlook]

theorem valuesEncode_perm {v₁ v₂ : List (String × List String)} (h : List.Perm v₁ v₂)
    (hn : (v₁.map Prod.fst).Nodup) : valuesEncode v₁ = valuesEncode v₂ := by
  unfold valuesEncode
  have hkeys : sortStrings (v₁.map Prod.fst) = sortStrings (v₂.map Prod.fst) :=
    sortStrings_eq_of_perm (h.map Prod.fst) hn
  have hlook : ∀ k, v₁.lookup k = v₂.lookup k := lookup_eq_of_perm h hn
  simp only [hkeys, hlook]

/-! ## Build-phase helper equations -/

theorem gateBuildRequest_private {c : GateClient} (h1 : c.apiKey ≠ "") (h2 : c.secretKey ≠ "")
    (method endpointPath : String) (qp : Option (List (String × List String)))
    (bp : Option Json) (now : Nat) :
    gateBuildRequest c method endpointPath qp bp now = .ok {
      method := method,
      url := c.baseURL ++ gateApiV4 ++ endpointPath ++
        (if gateQueryString qp != "" then "?" ++ gateQueryString qp else ""),
      headers := ([("Accept", "application/json")] ++
        (if method == "POST" || method == "PUT" || method == "DELETE" then
          [("Content-Type", "application/json")] else [])) ++
        [("KEY", c.apiKey), ("Timestamp", toString now),
         ("SIGN", gateGenerateSignature c method (gateApiV4 ++ endpointPath)
            (gateQueryString qp) (gateBodyBytes bp) (toString now))],
      body := gateBodyBytes bp } := by
  have e1 : (c.apiKey == "") = false := by simp [h1]
  have e2 : (c.secretKey == "") = false := by simp [h2]
  simp [gateBuildRequest, bne, e1, e2]

theorem gateBuildRequest_public {c : GateClient} (h : c.apiKey = "" ∨ c.secretKey = "")
    (method endpointPath : String) (qp : Option (List (String × List String)))
    (bp : Option Json) (now : Nat) :
    gateBuildRequest c method endpointPath qp bp now = .ok {
      method := method,
      url := c.baseURL ++ gateApiV4 ++ endpointPath ++
        (if gateQueryString qp != "" then "?" ++ gateQueryString qp else ""),
      headers := [("Accept", "application/json")] ++
        (if method == "POST" || method == "PUT" || method == "DELETE" then
          [("Content-Type", "application/json")] else []),
      body := gateBodyBytes bp } := by
  rcases h with h | h <;> simp [gateBuildRequest, bne, h]

theorem gateBuildRequest_ne_missingCredentials (c : GateClient) (method endpointPath : String)
    (qp : Option (List (String × List String))) (bp : Option Json) (now : Nat) :
    gateBuildRequest c method endpointPath qp bp now ≠
      Except.error BuildError.missingCredentials := by
  by_cases h1 : c.apiKey = ""
  · rw [gateBuildRequest_public (Or.inl h1)]; simp
  · by_cases h2 : c.secretKey = ""
    · rw [gateBuildRequest_public (Or.inr h2)]; simp
    · rw [gateBuildRequest_private h1 h2]; simp

theorem gateHandleResponse_ne_buildError {α : Type} (resp : HttpResp)
    (target : Option (Json → Option α)) (e : BuildError) :
    gateHandleResponse resp target ≠ GateOutcome.buildError e := by
  unfold gateHandleResponse
  by_cases hs : 400 ≤ resp.status
  · simp only [if_pos hs]
    cases hj : resp.jsonBody with
    | none => simp
    | some j =>
      cases he : unmarshalAPIError j with
      | none => simp [he]
      | some err =>
        by_cases hl : (err.label != "") = true <;> simp [he, hl]
  · simp only [if_neg hs]
    cases target with
    | none => simp
    | some dec =>
      cases hj : resp.jsonBody with
      | none => simp
      | some j => cases hd : dec j <;> simp [hd]

theorem xtBuildRequest_missingCred {c : XtClient} (h : c.apiKey = "" ∨ c.secretKey = "")
    (method baseURL path : String) (qp : List (String × String)) (bp : Option XtBody)
    (nowMs : Nat) :
    xtBuildRequest c method baseURL path qp bp true nowMs =
      .error BuildError.missingCredentials := by
  rcases h with h | h <;> simp [xtBuildRequest, h]

theorem xtBuildRequest_private {c : XtClient} (h1 : c.apiKey ≠ "") (h2 : c.secretKey ≠ "")
    (method baseURL path : String) (qp : List (String × String)) (bp : Option XtBody)
    (nowMs : Nat) :
    xtBuildRequest c method baseURL path qp bp true nowMs = .ok {
      method := method,
      url := baseURL ++ path ++
        (if sortAndEncodeParams qp != "" then "?" ++ sortAndEncodeParams qp else ""),
      headers := ((if xtContentType bp != "" then
            [("Content-Type", xtContentType bp)] else []) ++
         [("Accept", "application/json")]) ++
        [("validate-appkey", c.apiKey), ("validate-timestamp", toString nowMs),
         ("validate-signature", xtGenerateSignature c (toString nowMs) path
            (xtSigQuery method (sortAndEncodeParams qp)) (xtBodyString bp))],
      body := strBytes (xtBodyString bp) } := by
  have e1 : (c.apiKey == "") = false := by simp [h1]
  have e2 : (c.secretKey == "") = false := by simp [h2]
  simp [xtBuildRequest, e1, e2]

/-! ## Claims -/

/-- C10: in the Gate.io client the missing-credentials error branch inside
`sendRequest` is unreachable: no input makes the request builder (or the full
dispatch) return the missing-credentials configuration error, because the
authentication block runs only when `isPrivate` holds, and `isPrivate` is
defined as both credentials being non-empty. -/
theorem c10_gate_missing_cred_unreachable :
    ∀ {α : Type} (c : GateClient) (method endpointPath : String)
      (qp : Option (List (String × List String))) (bp : Option Json) (now : Nat)
      (transport : HttpRequest → HttpResp) (target : Option (Json → Option α)),
      gateBuildRequest c method endpointPath qp bp now ≠
        Except.error BuildError.missingCredentials ∧
      (gateSendRequest c method endpointPath qp bp now transport target).2 ≠
        GateOutcome.buildError BuildError.missingCredentials := by
  intro α c method ep qp bp now transport target
  refine ⟨gateBuildRequest_ne_missingCredentials c method ep qp bp now, ?_⟩
  unfold gateSendRequest
  cases hb : gateBuildRequest c method ep qp bp now with
  | error e =>
    cases e
    exact absurd hb (gateBuildRequest_ne_missingCredentials c method ep qp bp now)
  | ok req => exact gateHandleResponse_ne_buildError (transport req) target _

/-- C7: with no body payload, the Gate.io signing string still carries the
hashed-body segment, equal to the SHA-512 of the zero-length byte sequence
(whose hex digest is the well-known `cf83e135…927da3e` constant) — the
segment is never omitted. -/
theorem c7_gate_empty_body_hashed :
    gateBodyBytes none = [] ∧
    hexEncode (sha512 []) =
      "cf83e1357eefb8bdf1542850d66d8007d620e4050b5715dc83f4a921d36ce9ce47d0d13c5d85f2b0ff8318d2877eec2f63b931bd47417a81a538327af927da3e" ∧
    ∀ (c : GateClient) (method path query timestamp : String),
      gateGenerateSignature c method path query (gateBodyBytes none) timestamp =
        hexEncode (hmacSha512 (strBytes c.secretKey) (strBytes
          (method ++ "\n" ++ path ++ "\n" ++ query ++ "\n" ++
            "cf83e1357eefb8bdf1542850d66d8007d620e4050b5715dc83f4a921d36ce9ce47d0d13c5d85f2b0ff8318d2877eec2f63b931bd47417a81a538327af927da3e"
            ++ "\n" ++ timestamp))) := by
  have hc : hexEncode (sha512 []) =
      "cf83e1357eefb8bdf1542850d66d8007d620e4050b5715dc83f4a921d36ce9ce47d0d13c5d85f2b0ff8318d2877eec2f63b931bd47417a81a538327af927da3e" := by
    decide
  refine ⟨rfl, hc, ?_⟩
  intro c method path query ts
  unfold gateGenerateSignature gateBodyBytes
  rw [hc]

/-- C3: the Gate.io signature is the hex HMAC-SHA512, keyed by the secret,
of `METHOD\nPATH\nQUERY\nhex(SHA512(body))\nTIMESTAMP`; and on the dispatch
path of a private client the `SIGN` header is exactly that value with the
path prefixed by `/api/v4`, the encoded query string, and the marshalled
body bytes. -/
theorem c3_gate_signature_formula :
    (∀ (c : GateClient) (method path query : String) (body : List Nat) (timestamp : String),
      gateGenerateSignature c method path query body timestamp =
        hexEncode (hmacSha512 (strBytes c.secretKey) (strBytes
          (method ++ "\n" ++ path ++ "\n" ++ query ++ "\n" ++
            hexEncode (sha512 body) ++ "\n" ++ timestamp)))) ∧
    (∀ (c : GateClient) (method endpointPath : String)
      (qp : Option (List (String × List String))) (bp : Option Json) (now : Nat),
      c.apiKey ≠ "" → c.secretKey ≠ "" →
      ∃ req, gateBuildRequest c method endpointPath qp bp now = .ok req ∧
        req.headers.lookup "SIGN" =
          some (hexEncode (hmacSha512 (strBytes c.secretKey) (strBytes
            (method ++ "\n" ++ ("/api/v4" ++ endpointPath) ++ "\n" ++
              gateQueryString qp ++ "\n" ++
              hexEncode (sha512 (gateBodyBytes bp)) ++ "\n" ++ toString now))))) := by
  constructor
  · intro c method path query body ts
    rfl
  · intro c method ep qp bp now h1 h2
    refine ⟨_, gateBuildRequest_private h1 h2 method ep qp bp now, ?_⟩
    by_cases hm : (method == "POST" || method == "PUT" || method == "DELETE") = true <;>
      simp [hm, List.lookup_cons, gateGenerateSignature, gateApiV4]

theorem xtBuildRequest_notPrivate (c : XtClient) (method baseURL path : String)
    (qp : List (String × String)) (bp : Option XtBody) (nowMs : Nat) :
    xtBuildRequest c method baseURL path qp bp false nowMs = .ok {
      method := method,
      url := baseURL ++ path ++
        (if sortAndEncodeParams qp != "" then "?" ++ sortAndEncodeParams qp else ""),
      headers := (if xtContentType bp != "" then
          [("Content-Type", xtContentType bp)] else []) ++
        [("Accept", "application/json")],
      body := strBytes (xtBodyString bp) } := by
  simp [xtBuildRequest]

/-- C4: the XT.com signature is the hex HMAC-SHA256, keyed by the secret, of
the header part `validate-appkey=<key>&validate-timestamp=<ts>` concatenated
directly with the data part `#<path>[#<query>][#<body>]`, where the query and
body segments (with their leading `#`) are dropped exactly when empty; and on
the dispatch path the query participates in the signature only for GET and
DELETE requests. -/
theorem c4_xt_signature_formula :
    (∀ (c : XtClient) (timestamp path sortedQuery bodyString : String),
      xtGenerateSignature c timestamp path sortedQuery bodyString =
        hexEncode (hmacSha256 (strBytes c.secretKey) (strBytes
          (("validate-appkey=" ++ c.apiKey ++ "&validate-timestamp=" ++ timestamp) ++
            ("#" ++ path ++
              (if sortedQuery != "" then "#" ++ sortedQuery else "") ++
              (if bodyString != "" then "#" ++ bodyString else "")))))) ∧
    (∀ (c : XtClient) (method baseURL path : String) (qp : List (String × String))
      (bp : Option XtBody) (nowMs : Nat),
      c.apiKey ≠ "" → c.secretKey ≠ "" →
      ∃ req, xtBuildRequest c method baseURL path qp bp true nowMs = .ok req ∧
        req.headers.lookup "validate-signature" =
          some (xtGenerateSignature c (toString nowMs) path
            (xtSigQuery method (sortAndEncodeParams qp)) (xtBodyString bp)) ∧
        (¬(method = "GET" ∨ method = "DELETE") →
          xtSigQuery method (sortAndEncodeParams qp) = "") ∧
        ((method = "GET" ∨ method = "DELETE") →
          xtSigQuery method (sortAndEncodeParams qp) = sortAndEncodeParams qp)) := by
  constructor
  · intro c ts path q b
    rfl
  · intro c method baseURL path qp bp nowMs h1 h2
    refine ⟨_, xtBuildRequest_private h1 h2 method baseURL path qp bp nowMs, ?_, ?_, ?_⟩
    · cases bp with
      | none => simp [xtContentType, List.lookup_cons]
      | some b => cases b <;> simp [xtContentType, List.lookup_cons]
    · intro hm
      have hb : (method == "GET" || method == "DELETE") = false := by
        simp only [Bool.or_eq_false_iff, beq_eq_false_iff_ne, ne_eq]
        exact ⟨fun h => hm (Or.inl h), fun h => hm (Or.inr h)⟩
      simp [xtSigQuery, hb]
    · intro hm
      rcases hm with h | h <;> simp [xtSigQuery, h]

/-- C4 witness: a concrete private POST call whose signature header matches
the formula with the query part excluded (POST is neither GET nor DELETE). -/
theorem c4_witness :
    ∃ req, xtBuildRequest (xtNewClient "k" "s") "POST" "https://fapi.xt.com"
        "/future/trade/v1/order" [("a", "1")] none true 1700000000000 = .ok req ∧
      req.headers.lookup "validate-signature" =
        some (xtGenerateSignature (xtNewClient "k" "s") (toString 1700000000000)
          "/future/trade/v1/order"
          (xtSigQuery "POST" (sortAndEncodeParams [("a", "1")])) (xtBodyString none)) ∧
      (¬("POST" = "GET" ∨ "POST" = "DELETE") →
        xtSigQuery "POST" (sortAndEncodeParams [("a", "1")]) = "") ∧
      (("POST" = "GET" ∨ "POST" = "DELETE") →
        xtSigQuery "POST" (sortAndEncodeParams [("a", "1")]) =
          sortAndEncodeParams [("a", "1")]) :=
  c4_xt_signature_formula.2 (xtNewClient "k" "s") "POST" "https://fapi.xt.com"
    "/future/trade/v1/order" [("a", "1")] none 1700000000000 (by decide) (by decide)

/-- C9: the XT.com signed string never involves the receive window: changing
`recvWindow` (via `SetRecvWindow` or otherwise) never changes a signature, and
no built request carries a `validate-recvwindow` header. -/
theorem c9_xt_recvwindow_not_signed :
    (∀ (c : XtClient) (ms : Int) (timestamp path sortedQuery bodyString : String),
      xtGenerateSignature (xtSetRecvWindow c ms) timestamp path sortedQuery bodyString =
        xtGenerateSignature c timestamp path sortedQuery bodyString) ∧
    (∀ (c₁ c₂ : XtClient), c₁.apiKey = c₂.apiKey → c₁.secretKey = c₂.secretKey →
      ∀ (timestamp path sortedQuery bodyString : String),
        xtGenerateSignature c₁ timestamp path sortedQuery bodyString =
          xtGenerateSignature c₂ timestamp path sortedQuery bodyString) ∧
    (∀ (c : XtClient) (method baseURL path : String) (qp : List (String × String))
      (bp : Option XtBody) (isPrivate : Bool) (nowMs : Nat) (req : HttpRequest),
      xtBuildRequest c method baseURL path qp bp isPrivate nowMs = .ok req →
      req.headers.lookup "validate-recvwindow" = none) := by
  refine ⟨?_, ?_, ?_⟩
  · intro c ms ts path q b
    rfl
  · intro c₁ c₂ h1 h2 ts path q b
    unfold xtGenerateSignature
    rw [h1, h2]
  · intro c method baseURL path qp bp isPrivate nowMs req hok
    cases isPrivate with
    | false =>
      rw [xtBuildRequest_notPrivate] at hok
      injection hok with h
      subst h
      cases bp with
      | none => simp [xtContentType, List.lookup_cons]
      | some b => cases b <;> simp [xtContentType, List.lookup_cons]
    | true =>
      by_cases h1 : c.apiKey = ""
      · rw [xtBuildRequest_missingCred (Or.inl h1)] at hok
        exact absurd hok (by simp)
      · by_cases h2 : c.secretKey = ""
        · rw [xtBuildRequest_missingCred (Or.inr h2)] at hok
          exact absurd hok (by simp)
        · rw [xtBuildRequest_private h1 h2] at hok
          injection hok with h
          subst h
          cases bp with
          | none => simp [xtContentType, List.lookup_cons]
          | some b => cases b <;> simp [xtContentType, List.lookup_cons]

/-- C9 witness: concrete clients differing only in the receive window produce
the same signature, and a concrete built request has no recvwindow header. -/
theorem c9_witness :
    (xtGenerateSignature (xtNewClient "k" "s") "5" "/p" "" "" =
      xtGenerateSignature (xtSetRecvWindow (xtNewClient "k" "s") 9999) "5" "/p" "" "") ∧
    (match xtBuildRequest (xtNewClient "k" "s") "GET" "https://fapi.xt.com" "/p" [] none
        false 5 with
      | .ok req => req.headers.lookup "validate-recvwindow" = none
      | .error _ => True) := by
  constructor
  · exact (c9_xt_recvwindow_not_signed.2.1 (xtNewClient "k" "s")
      (xtSetRecvWindow (xtNewClient "k" "s") 9999) rfl rfl "5" "/p" "" "")
  · cases hb : xtBuildRequest (xtNewClient "k" "s") "GET" "https://fapi.xt.com" "/p" [] none
        false 5 with
    | ok req =>
      exact c9_xt_recvwindow_not_signed.2.2 (xtNewClient "k" "s") "GET"
        "https://fapi.xt.com" "/p" [] none false 5 req hb
    | error e => trivial

/-- C3 witness: a concrete private GET call whose `SIGN` header matches the
full formula (prefixed path, empty query, empty-body hash). -/
theorem c3_witness :
    ∃ req, gateBuildRequest (gateNewClient "k" "s") "GET" "/futures/usdt/accounts"
        none none 1700000000 = .ok req ∧
      req.headers.lookup "SIGN" =
        some (hexEncode (hmacSha512 (strBytes (gateNewClient "k" "s").secretKey) (strBytes
          ("GET" ++ "\n" ++ ("/api/v4" ++ "/futures/usdt/accounts") ++ "\n" ++
            gateQueryString none ++ "\n" ++
            hexEncode (sha512 (gateBodyBytes none)) ++ "\n" ++ toString 1700000000)))) :=
  c3_gate_signature_formula.2 (gateNewClient "k" "s") "GET" "/futures/usdt/accounts"
    none none 1700000000 (by decide) (by decide)

/-- C1 counterexample: on a Gate.io client built with empty credentials, a
call to a private endpoint does NOT fail fast — the transport is invoked
(first component `true`) and the call returns success rather than any
configuration error, contradicting the claim for the Gate.io client. -/
theorem c1_counterexample :
    (gateSendRequest (α := Unit) (gateNewClient "" "") "GET" "/futures/usdt/accounts"
        none none 1700000000 (fun _ => ⟨200, "", some .null⟩) none).1 = true ∧
    (gateSendRequest (α := Unit) (gateNewClient "" "") "GET" "/futures/usdt/accounts"
        none none 1700000000 (fun _ => ⟨200, "", some .null⟩) none).2 =
      GateOutcome.ok none := by
  exact ⟨rfl, rfl⟩

/-- C1 (amended): the fail-fast guarantee holds for the XT.com client (whose
`sendRequest` takes an explicit `isPrivate` flag): with either credential
empty, a private call returns the missing-credentials configuration error and
the transport is never invoked. The Gate.io client instead infers privacy
from credential presence, so with empty credentials it always proceeds to the
transport as an unauthenticated public call, with no `KEY`/`SIGN` headers and
no configuration error. -/
theorem c1_fail_fast_amended :
    (∀ {α : Type} (c : XtClient) (method baseURL path : String)
      (qp : List (String × String)) (bp : Option XtBody) (nowMs : Nat)
      (transport : HttpRequest → HttpResp) (target : Option (Json → Option α)),
      c.apiKey = "" ∨ c.secretKey = "" →
      xtSendRequest c method baseURL path qp bp true nowMs transport target =
        (false, XtOutcome.buildError BuildError.missingCredentials)) ∧
    (∀ {α : Type} (c : GateClient) (method endpointPath : String)
      (qp : Option (List (String × List String))) (bp : Option Json) (now : Nat)
      (transport : HttpRequest → HttpResp) (target : Option (Json → Option α)),
      c.apiKey = "" ∨ c.secretKey = "" →
      (gateSendRequest c method endpointPath qp bp now transport target).1 = true ∧
      ∀ req, gateBuildRequest c method endpointPath qp bp now = .ok req →
        req.headers.lookup "KEY" = none ∧ req.headers.lookup "SIGN" = none) := by
  constructor
  · intro α c method baseURL path qp bp nowMs transport target h
    unfold xtSendRequest
    rw [xtBuildRequest_missingCred h]
  · intro α c method ep qp bp now transport target h
    constructor
    · unfold gateSendRequest
      rw [gateBuildRequest_public h]
    · intro req hok
      rw [gateBuildRequest_public h] at hok
      injection hok with h'
      subst h'
      by_cases hm : (method == "POST" || method == "PUT" || method == "DELETE") = true <;>
        simp [hm, List.lookup_cons]

/-- C1 witness: concrete empty-credential clients — the XT call yields the
configuration error without reaching the transport, and the Gate.io call
reaches the transport. -/
theorem c1_witness :
    (xtSendRequest (α := Unit) (xtNewClient "" "") "GET" "https://fapi.xt.com"
        "/future/user/v1/balance/list" [] none true 1700000000000
        (fun _ => ⟨200, "", some .null⟩) none =
      (false, XtOutcome.buildError BuildError.missingCredentials)) ∧
    (gateSendRequest (α := Unit) (gateNewClient "" "x") "GET" "/futures/usdt/accounts"
        none none 1700000000 (fun _ => ⟨200, "", some .null⟩) none).1 = true := by
  constructor
  · exact c1_fail_fast_amended.1 (xtNewClient "" "") "GET" "https://fapi.xt.com"
      "/future/user/v1/balance/list" [] none 1700000000000
      (fun _ => ⟨200, "", some .null⟩) none (Or.inl rfl)
  · exact (c1_fail_fast_amended.2 (gateNewClient "" "x") "GET" "/futures/usdt/accounts"
      none none 1700000000 (fun _ => ⟨200, "", some .null⟩) none (Or.inl rfl)).1

/-- C5: the body bytes a signed request transmits are byte-for-byte the
signer's body input: Gate.io hashes exactly the marshalled bytes it sends,
and XT.com signs exactly the sorted-form or marshalled-JSON string it sends. -/
theorem c5_signed_body_matches_wire :
    (∀ (c : GateClient) (method endpointPath : String)
      (qp : Option (List (String × List String))) (bp : Option Json) (now : Nat),
      c.apiKey ≠ "" → c.secretKey ≠ "" →
      ∃ req, gateBuildRequest c method endpointPath qp bp now = .ok req ∧
        req.body = gateBodyBytes bp ∧
        req.headers.lookup "SIGN" =
          some (gateGenerateSignature c method (gateApiV4 ++ endpointPath)
            (gateQueryString qp) req.body (toString now))) ∧
    (∀ (c : XtClient) (method baseURL path : String) (qp : List (String × String))
      (bp : Option XtBody) (nowMs : Nat),
      c.apiKey ≠ "" → c.secretKey ≠ "" →
      ∃ req, xtBuildRequest c method baseURL path qp bp true nowMs = .ok req ∧
        req.body = strBytes (xtBodyString bp) ∧
        req.headers.lookup "validate-signature" =
          some (xtGenerateSignature c (toString nowMs) path
            (xtSigQuery method (sortAndEncodeParams qp)) (xtBodyString bp))) := by
  constructor
  · intro c method ep qp bp now h1 h2
    refine ⟨_, gateBuildRequest_private h1 h2 method ep qp bp now, rfl, ?_⟩
    by_cases hm : (method == "POST" || method == "PUT" || method == "DELETE") = true <;>
      simp [hm, List.lookup_cons]
  · intro c method baseURL path qp bp nowMs h1 h2
    refine ⟨_, xtBuildRequest_private h1 h2 method baseURL path qp bp nowMs, rfl, ?_⟩
    cases bp with
    | none => simp [xtContentType, List.lookup_cons]
    | some b => cases b <;> simp [xtContentType, List.lookup_cons]

/-- C5 witness: concrete signed POST calls on both clients whose transmitted
body equals the signer's body input. -/
theorem c5_witness :
    (∃ req, gateBuildRequest (gateNewClient "k" "s") "POST" "/futures/usdt/orders"
        none (some (.obj [("contract", .str "BTC_USDT")])) 1700000000 = .ok req ∧
      req.body = gateBodyBytes (some (.obj [("contract", .str "BTC_USDT")])) ∧
      req.headers.lookup "SIGN" =
        some (gateGenerateSignature (gateNewClient "k" "s") "POST"
          (gateApiV4 ++ "/futures/usdt/orders") (gateQueryString none) req.body
          (toString 1700000000))) ∧
    (∃ req, xtBuildRequest (xtNewClient "k" "s") "POST" "https://fapi.xt.com"
        "/future/trade/v1/order" [] (some (.form [("b", "2"), ("a", "1")])) true
        1700000000000 = .ok req ∧
      req.body = strBytes (xtBodyString (some (.form [("b", "2"), ("a", "1")]))) ∧
      req.headers.lookup "validate-signature" =
        some (xtGenerateSignature (xtNewClient "k" "s") (toString 1700000000000)
          "/future/trade/v1/order" (xtSigQuery "POST" (sortAndEncodeParams []))
          (xtBodyString (some (.form [("b", "2"), ("a", "1")]))))) :=
  ⟨c5_signed_body_matches_wire.1 (gateNewClient "k" "s") "POST" "/futures/usdt/orders"
      none (some (.obj [("contract", .str "BTC_USDT")])) 1700000000 (by decide) (by decide),
    c5_signed_body_matches_wire.2 (xtNewClient "k" "s") "POST" "https://fapi.xt.com"
      "/future/trade/v1/order" [] (some (.form [("b", "2"), ("a", "1")])) 1700000000000
      (by decide) (by decide)⟩

/-- C2 counterexample: the XT.com dispatcher never inspects the HTTP status:
a 500 response whose body has `returnCode 0` yields a nil error (refuting
"a non-success status never yields a nil error"), and a 200 response with
`returnCode 1` yields an exchange-rejected error (refuting "success status
with a well-formed body never yields an exchange-rejected error"). -/
theorem c2_counterexample :
    xtHandleResponse (α := Unit)
      ⟨500, "\x7b\"returnCode\":0\x7d", some (.obj [("returnCode", .num 0)])⟩ none =
      XtOutcome.ok none ∧
    xtHandleResponse (α := Unit)
      ⟨200, "\x7b\"returnCode\":1,\"msgInfo\":\"bar\"\x7d",
        some (.obj [("returnCode", .num 1), ("msgInfo", .str "bar")])⟩ none =
      XtOutcome.apiError 1 "bar" := by
  exact ⟨rfl, rfl⟩

/-- C2 (amended): the Gate.io dispatcher behaves as claimed with non-success
meaning status ≥ 400: such a status yields the parsed structured error (when
the body parses with a non-empty label) or the generic status+body error, and
never a nil result; a status < 400 never yields an exchange or generic HTTP
error. The XT.com dispatcher ignores the HTTP status entirely: classification
depends only on the body — an unparsable body yields the generic raw-body
error and a non-zero `returnCode` yields the structured exchange error,
regardless of status. -/
theorem c2_amended_response_classification :
    (∀ {α : Type} (resp : HttpResp) (target : Option (Json → Option α)),
      400 ≤ resp.status →
      ((∃ l m, gateHandleResponse resp target = .apiError l m ∧ l ≠ "") ∨
        gateHandleResponse resp target = .genericHttp resp.status resp.rawBody) ∧
      ∀ v, gateHandleResponse resp target ≠ .ok v) ∧
    (∀ {α : Type} (resp : HttpResp) (target : Option (Json → Option α)),
      resp.status < 400 →
      (∀ l m, gateHandleResponse resp target ≠ .apiError l m) ∧
      (∀ s b, gateHandleResponse resp target ≠ .genericHttp s b)) ∧
    (gateHandleResponse (α := Unit)
      ⟨502, "\x7b\"label\":\"INVALID_PARAM\",\"message\":\"foo\"\x7d",
        some (.obj [("label", .str "INVALID_PARAM"), ("message", .str "foo")])⟩ none =
      GateOutcome.apiError "INVALID_PARAM" "foo") ∧
    (∀ {α : Type} (s₁ s₂ : Nat) (raw : String) (j : Option Json)
      (target : Option (Json → Option α)),
      xtHandleResponse ⟨s₁, raw, j⟩ target = xtHandleResponse ⟨s₂, raw, j⟩ target) ∧
    (∀ {α : Type} (s : Nat) (raw : String) (target : Option (Json → Option α)),
      xtHandleResponse ⟨s, raw, none⟩ target = .unmarshalError raw) ∧
    (∀ {α : Type} (resp : HttpResp) (j : Json) (cr : CommonResponse)
      (target : Option (Json → Option α)),
      resp.jsonBody = some j → unmarshalCommon j = some cr → cr.returnCode ≠ 0 →
      xtHandleResponse resp target = .apiError cr.returnCode cr.msgInfo) := by
  refine ⟨?_, ?_, rfl, ?_, ?_, ?_⟩
  · intro α resp target hs
    constructor
    · unfold gateHandleResponse
      rw [if_pos hs]
      cases hj : resp.jsonBody with
      | none => exact Or.inr rfl
      | some j =>
        cases he : unmarshalAPIError j with
        | none => simp [he]
        | some err =>
          by_cases hl : (err.label != "") = true
          · refine Or.inl ⟨err.label, err.message, ?_, by simpa using hl⟩
            simp [he, hl]
          · simp [he, hl]
    · intro v
      unfold gateHandleResponse
      rw [if_pos hs]
      cases hj : resp.jsonBody with
      | none => simp
      | some j =>
        cases he : unmarshalAPIError j with
        | none => simp [he]
        | some err => by_cases hl : (err.label != "") = true <;> simp [he, hl]
  · intro α resp target hs
    have hs' : ¬400 ≤ resp.status := by omega
    constructor
    · intro l m
      unfold gateHandleResponse
      rw [if_neg hs']
      cases target with
      | none => simp
      | some dec =>
        cases hj : resp.jsonBody with
        | none => simp
        | some j => cases hd : dec j <;> simp [hd]
    · intro s b
      unfold gateHandleResponse
      rw [if_neg hs']
      cases target with
      | none => simp
      | some dec =>
        cases hj : resp.jsonBody with
        | none => simp
        | some j => cases hd : dec j <;> simp [hd]
  · intro α s₁ s₂ raw j target
    rfl
  · intro α s raw target
    rfl
  · intro α resp j cr target hj hcr hrc
    have hb : (cr.returnCode != 0) = true := by simpa using hrc
    unfold xtHandleResponse
    rw [hj]
    simp [hcr, hb]

/-- C2 witness: the Gate.io classification applied to a concrete 502 response
with a structured error body, discharging the status hypothesis. -/
theorem c2_witness :
    ((∃ l m, gateHandleResponse (α := Unit)
        ⟨502, "x", some (.obj [("label", .str "INVALID_PARAM"), ("message", .str "foo")])⟩
        none = .apiError l m ∧ l ≠ "") ∨
      gateHandleResponse (α := Unit)
        ⟨502, "x", some (.obj [("label", .str "INVALID_PARAM"), ("message", .str "foo")])⟩
        none = .genericHttp 502 "x") ∧
    ∀ v, gateHandleResponse (α := Unit)
        ⟨502, "x", some (.obj [("label", .str "INVALID_PARAM"), ("message", .str "foo")])⟩
        none ≠ .ok v :=
  c2_amended_response_classification.1
    ⟨502, "x", some (.obj [("label", .str "INVALID_PARAM"), ("message", .str "foo")])⟩
    none (by decide)

/-- C8: on a success-status response with a caller-supplied target, a body
that does not decode into the target produces the decode-error class — a
constructor distinct from the ok, exchange-rejected and generic-HTTP
outcomes — and never a nil error with a zero value. For XT.com the analogous
holds once the body's `returnCode` is 0; an entirely unparsable body yields
its own distinct unmarshal-error class. -/
theorem c8_decode_failure_is_distinct_error :
    (∀ {α : Type} (resp : HttpResp) (dec : Json → Option α),
      resp.status < 400 →
      (resp.jsonBody = none ∨ ∃ j, resp.jsonBody = some j ∧ dec j = none) →
      gateHandleResponse resp (some dec) = .decodeError resp.rawBody ∧
      ∀ v, gateHandleResponse resp (some dec) ≠ .ok v) ∧
    (∀ {α : Type} (resp : HttpResp) (dec : Json → Option α) (j : Json)
      (cr : CommonResponse),
      resp.jsonBody = some j → unmarshalCommon j = some cr → cr.returnCode = 0 →
      dec j = none →
      xtHandleResponse resp (some dec) = .decodeError resp.rawBody ∧
      ∀ v, xtHandleResponse resp (some dec) ≠ .ok v) ∧
    (∀ {α : Type} (b b' : String) (v : Option α) (l m : String) (s : Nat) (code : Int),
      GateOutcome.decodeError (α := α) b ≠ GateOutcome.ok v ∧
      GateOutcome.decodeError (α := α) b ≠ GateOutcome.apiError l m ∧
      GateOutcome.decodeError (α := α) b ≠ GateOutcome.genericHttp s b' ∧
      XtOutcome.decodeError (α := α) b ≠ XtOutcome.ok v ∧
      XtOutcome.decodeError (α := α) b ≠ XtOutcome.apiError code m ∧
      XtOutcome.decodeError (α := α) b ≠ XtOutcome.unmarshalError b') := by
  refine ⟨?_, ?_, ?_⟩
  · intro α resp dec hs hbad
    have hs' : ¬400 ≤ resp.status := by omega
    have hde : gateHandleResponse resp (some dec) = .decodeError resp.rawBody := by
      unfold gateHandleResponse
      rw [if_neg hs']
      rcases hbad with hj | ⟨j, hj, hd⟩
      · rw [hj]
      · rw [hj]
        simp [hd]
    exact ⟨hde, fun v => by rw [hde]; simp⟩
  · intro α resp dec j cr hj hcr hrc hd
    have hb : (cr.returnCode != 0) = false := by simp [hrc]
    have hde : xtHandleResponse resp (some dec) = .decodeError resp.rawBody := by
      unfold xtHandleResponse
      rw [hj]
      simp [hcr, hb, hd]
    exact ⟨hde, fun v => by rw [hde]; simp⟩
  · intro α b b' v l m s code
    refine ⟨by simp, by simp, by simp, by simp, by simp, by simp⟩

/-- C8 witness: a concrete 200 response whose body does not decode into the
target yields the decode error on both clients. -/
theorem c8_witness :
    (gateHandleResponse (α := Unit) ⟨200, "not-json", none⟩ (some fun _ => none) =
        .decodeError "not-json" ∧
      ∀ v, gateHandleResponse (α := Unit) ⟨200, "not-json", none⟩ (some fun _ => none) ≠
        .ok v) ∧
    (xtHandleResponse (α := Unit) ⟨200, "\x7b\x7d", some (.obj [])⟩ (some fun _ => none) =
        .decodeError "\x7b\x7d" ∧
      ∀ v, xtHandleResponse (α := Unit) ⟨200, "\x7b\x7d", some (.obj [])⟩
        (some fun _ => none) ≠ .ok v) :=
  ⟨c8_decode_failure_is_distinct_error.1 ⟨200, "not-json", none⟩ (fun _ => none)
      (by decide) (Or.inl rfl),
    c8_decode_failure_is_distinct_error.2.1 ⟨200, "\x7b\x7d", some (.obj [])⟩
      (fun _ => none) (.obj []) ⟨0, "", none⟩ rfl rfl rfl rfl⟩

/-- C6: the canonical query string on the private signing path sorts keys
lexicographically, URL-escapes keys and values, joins them as `key=value`
pairs with `&` (so `{b: "2", a: "1"}` encodes to `a=1&b=2` under both
encoders), and the result does not depend on the map's iteration order. -/
theorem c6_canonical_query_encoding :
    sortAndEncodeParams [("b", "2"), ("a", "1")] = "a=1&b=2" ∧
    valuesEncode [("b", ["2"]), ("a", ["1"])] = "a=1&b=2" ∧
    (∀ params : List (String × String), params ≠ [] →
      sortAndEncodeParams params =
        joinAmp ((sortStrings (params.map Prod.fst)).map fun k =>
          queryEscape k ++ "=" ++ queryEscape ((params.lookup k).getD ""))) ∧
    (∀ l : List String,
      List.Pairwise (fun a b => goStrLe a b = true) (sortStrings l) ∧
      List.Perm (sortStrings l) l) ∧
    (∀ p₁ p₂ : List (String × String), List.Perm p₁ p₂ → (p₁.map Prod.fst).Nodup →
      sortAndEncodeParams p₁ = sortAndEncodeParams p₂) ∧
    (∀ v₁ v₂ : List (String × List String), List.Perm v₁ v₂ → (v₁.map Prod.fst).Nodup →
      valuesEncode v₁ = valuesEncode v₂) := by
  refine ⟨by decide, by decide, ?_, ?_, ?_, ?_⟩
  · intro params hp
    have he : params.isEmpty = false := by
      cases params with
      | nil => exact absurd rfl hp
      | cons x xs => rfl
    unfold sortAndEncodeParams
    rw [he]
    rfl
  · intro l
    exact ⟨sortStrings_pairwise l, sortStrings_perm l⟩
  · intro p₁ p₂ h hn
    exact sortAndEncodeParams_perm h hn
  · intro v₁ v₂ h hn
    exact valuesEncode_perm h hn

/-- C6 witness: two iteration orders of the same two-entry map encode to the
same canonical string. -/
theorem c6_witness :
    sortAndEncodeParams [("b", "2"), ("a", "1")] =
      sortAndEncodeParams [("a", "1"), ("b", "2")] :=
  c6_canonical_query_encoding.2.2.2.2.1 [("b", "2"), ("a", "1")] [("a", "1"), ("b", "2")]
    (List.Perm.swap ("a", "1") ("b", "2") []) (by decide)

end Futures
